import Mathlib

/-!
# BluetoothGattServerBinderServer: instance lookup and callback safety

A shallow embedding of
`system/service/ipc/binder/bluetooth_gatt_server_binder_server.cc`.

Every member function of the dispatcher is a sequential program over

* the dispatcher's registry (the two lookups `GetInstance` and `GetCallback`
  of the base class `InterfaceWithInstancesBase`),
* the Engine objects (`bluetooth::GattServer`) held by the registry, whose
  replies are given by the object itself, and
* the remote callback proxies (`IBluetoothGattServerCallback`).

A run of a member function produces a trace of the actions it performed, in
program order (registry lookups, calls on Engine objects, events delivered to
remote callbacks, stores through the output pointers), the dispatcher state it
leaves behind, and either a return value or a fault.

`std::lock_guard<std::mutex> lock(*maps_lock())`, `VLOG` and `LOG` have no
effect on a sequential run and are left out of the trace.
-/

namespace ipc.binder

/-! ## Data carried through the dispatcher -/

/-- The type `bluetooth::UUID` (and its parcelable wrapper): the dispatcher only
copies it, so a value is an uninterpreted 128-bit number. -/
structure UUID where
  value : Nat
  deriving DecidableEq, Repr

/-- The type `bluetooth::GattIdentifier` (and its parcelable wrapper): the dispatcher
only copies it, so a value is an uninterpreted token naming one attribute. -/
structure GattIdentifier where
  handle : Nat
  deriving DecidableEq, Repr

/-- The type `android::String16`, the string type of the remote interface. -/
structure String16 where
  chars : List Char
  deriving DecidableEq, Repr

/-- The type `std::string`, the string type of the Engine interface. -/
structure StdString where
  chars : List Char
  deriving DecidableEq, Repr

/-- The type `std::vector<uint8_t>`. -/
abbrev Bytes := List (Fin 256)

/-- The enum `bluetooth::BLEStatus`, by its integer value. -/
abbrev BLEStatus := Int

/-- The enum `bluetooth::GATTError`, by its integer value. -/
abbrev GATTError := Int

/-- The enumerator `bluetooth::BLE_STATUS_SUCCESS`. -/
def BLE_STATUS_SUCCESS : BLEStatus := 0

/-- The constant `kInvalidInstanceId` of the anonymous namespace. -/
def kInvalidInstanceId : Int := -1

/-- The expression `std::string(String8(device_address).string())`: the text of a
`String16` as a C string, which ends at the first NUL character. -/
def toStdString (device_address : String16) : StdString :=
  ⟨device_address.chars.takeWhile (fun c => c != Char.ofNat 0)⟩

/-- The expression `String16(device_address.c_str(), device_address.length())`:
the whole text of a `std::string`, length given explicitly. -/
def toString16 (device_address : StdString) : String16 :=
  ⟨device_address.chars⟩

/-- The type `android::binder::Status`, the transport status of a command. -/
inductive Status where
  | ok
  | exception (code : Int)
  deriving DecidableEq, Repr

/-- A C++ output parameter: a null pointer, or a pointer to a slot of the caller. -/
inductive OutPtr where
  | nullptr
  | valid
  deriving DecidableEq, Repr

/-! ## Closures handed to the Engine -/

/-- The lambda built in `EndServiceDeclaration`. It captures by value the weak
pointer to the dispatcher and `server_id`. -/
structure ServiceAddedClosure where
  server_id : Int
  deriving DecidableEq, Repr

/-- The lambda built in `SendNotification`. It captures by value the weak pointer
to the dispatcher, `server_id` and `device_address`. -/
structure NotificationSentClosure where
  server_id : Int
  device_address : String16
  deriving DecidableEq, Repr

/-! ## The Engine object and the remote callback -/

/-- One call on an Engine object (`bluetooth::GattServer`), with its arguments. -/
inductive EngineCall where
  | BeginServiceDeclaration (uuid : UUID) (is_primary : Bool)
  | AddCharacteristic (uuid : UUID) (properties permissions : Int)
  | AddDescriptor (uuid : UUID) (permissions : Int)
  | EndServiceDeclaration (callback : ServiceAddedClosure)
  | SendResponse (device_address : StdString) (request_id : Int) (error : GATTError)
      (offset : Int) (value : Bytes)
  | SendNotification (device_address : StdString) (characteristic_id : GattIdentifier)
      (confirm : Bool) (value : Bytes) (callback : NotificationSentClosure)
  | SetDelegate
  deriving DecidableEq, Repr

/-- An Engine object, `bluetooth::GattServer`. It is an external collaborator: `addr`
is the identity of the object, `GetInstanceId` its instance id, and every other
field is the reply the object gives to that call in its current state. -/
structure GattServer where
  addr : Nat
  GetInstanceId : Int
  BeginServiceDeclaration : UUID → Bool → Option GattIdentifier
  AddCharacteristic : UUID → Int → Int → Option GattIdentifier
  AddDescriptor : UUID → Int → Option GattIdentifier
  EndServiceDeclaration : ServiceAddedClosure → Bool
  SendResponse : StdString → Int → GATTError → Int → Bytes → Bool
  SendNotification :
    StdString → GattIdentifier → Bool → Bytes → NotificationSentClosure → Bool

/-- A remote callback proxy, `android::sp<IBluetoothGattServerCallback>` when not
null, identified by its binder. -/
structure IBluetoothGattServerCallback where
  binder : Nat
  deriving DecidableEq, Repr

/-- One event delivered to a remote callback: a method of
`IBluetoothGattServerCallback` with its arguments. -/
inductive Event where
  | OnServerRegistered (status : Int) (server_id : Int)
  | OnServiceAdded (status : Int) (service_id : GattIdentifier)
  | OnCharacteristicReadRequest (device_address : String16) (request_id offset : Int)
      (is_long : Bool) (characteristic_id : GattIdentifier)
  | OnDescriptorReadRequest (device_address : String16) (request_id offset : Int)
      (is_long : Bool) (descriptor_id : GattIdentifier)
  | OnCharacteristicWriteRequest (device_address : String16) (request_id offset : Int)
      (is_prepare_write need_response : Bool) (value : Bytes)
      (characteristic_id : GattIdentifier)
  | OnDescriptorWriteRequest (device_address : String16) (request_id offset : Int)
      (is_prepare_write need_response : Bool) (value : Bytes)
      (descriptor_id : GattIdentifier)
  | OnExecuteWriteRequest (device_address : String16) (request_id : Int)
      (is_execute : Bool)
  | OnConnectionStateChanged (device_address : String16) (connected : Bool)
  | OnNotificationSent (device_address : String16) (status : Int)
  deriving DecidableEq, Repr

/-! ## Runs -/

/-- One action of a run, as seen from outside the member function. -/
inductive Action where
  | GetInstance (instance_id : Int)
  | GetCallback (instance_id : Int)
  | engine (addr : Nat) (call : EngineCall)
  | deliver (callback : IBluetoothGattServerCallback) (event : Event)
  | store_out_id (value : GattIdentifier)
  | store_aidl_return (value : Bool)
  deriving DecidableEq, Repr

/-- The two ways a run stops without returning: a failed `CHECK`, which aborts the
process, and a dereference of a null pointer. -/
inductive Fault where
  | check_failed
  | null_dereference
  deriving DecidableEq, Repr

/-- The outcome of a run: the actions performed in program order, the state left
behind, and the value returned or the fault that stopped the run. -/
structure Run (σ α : Type) where
  trace : List Action
  state : σ
  result : Except Fault α

/-- Modelled from the spec: the registry of the base class
`InterfaceWithInstancesBase`, which is not part of this file. The spec's
`Lookup(id) -> ServerInstance?` and `LookupCallback(id) -> RemoteCallback?` are the
two fields; absence is `none`. -/
structure Dispatcher where
  id_to_instance : Int → Option GattServer
  id_to_cb : Int → Option IBluetoothGattServerCallback

/-- A member function of the dispatcher: a program from the dispatcher state. -/
def M (α : Type) : Type := Dispatcher → Run Dispatcher α

/-- Return a value without acting. -/
def M.pure {α : Type} (a : α) : M α :=
  fun d => ⟨[], d, .ok a⟩

/-- Sequencing: the second program runs from the state the first one left, unless
the first one stopped with a fault. -/
def M.bind {α β : Type} (m : M α) (f : α → M β) : M β :=
  fun d =>
    let r := m d
    match r.result with
    | .error e => ⟨r.trace, r.state, .error e⟩
    | .ok a =>
      let r2 := f a r.state
      ⟨r.trace ++ r2.trace, r2.state, r2.result⟩

instance : Monad M where
  pure := M.pure
  bind := M.bind

/-- Perform one action. -/
def act (a : Action) : M Unit :=
  fun d => ⟨[a], d, .ok ()⟩

/-- Stop with a fault. -/
def fault {α : Type} (e : Fault) : M α :=
  fun d => ⟨[], d, .error e⟩

/-- The macro `CHECK(condition)` of `base/logging.h`: abort the process unless the
condition holds, in every build. -/
def CHECK (condition : Bool) : M Unit :=
  if condition then M.pure () else fault .check_failed

/-- Modelled from the spec: `InterfaceWithInstancesBase::GetInstance`, the spec's
`Lookup(id)`: the instance registered under the id, if any. -/
def GetInstance (instance_id : Int) : M (Option GattServer) :=
  fun d => ⟨[.GetInstance instance_id], d, .ok (d.id_to_instance instance_id)⟩

/-- Modelled from the spec: `InterfaceWithInstancesBase::GetCallback`, the spec's
`LookupCallback(id)`: the callback registered under the id, if any. -/
def GetCallback (instance_id : Int) : M (Option IBluetoothGattServerCallback) :=
  fun d => ⟨[.GetCallback instance_id], d, .ok (d.id_to_cb instance_id)⟩

/-- The statement `*out_id = value`. -/
def store_out_id (out_id : OutPtr) (value : GattIdentifier) : M Unit :=
  match out_id with
  | .nullptr => fault .null_dereference
  | .valid => act (.store_out_id value)

/-- The statement `*_aidl_return = value`. -/
def store_aidl_return (_aidl_return : OutPtr) (value : Bool) : M Unit :=
  match _aidl_return with
  | .nullptr => fault .null_dereference
  | .valid => act (.store_aidl_return value)

/-- A call `gatt_server->f(args)` on a live Engine object: the call is made and the
object's reply returned. -/
def call {ρ : Type} (gatt_server : GattServer) (c : EngineCall) (reply : ρ) : M ρ :=
  fun d => ⟨[.engine gatt_server.addr c], d, .ok reply⟩

/-- A call `gatt_cb->OnXxx(args)` on a remote callback proxy. -/
def deliver (gatt_cb : IBluetoothGattServerCallback) (event : Event) : M Unit :=
  act (.deliver gatt_cb event)

/-- The use `p->...` of a pointer that may be null. -/
def deref {α : Type} (p : Option α) : M α :=
  match p with
  | none => fault .null_dereference
  | some a => M.pure a

/-! ## The member functions -/

/-- The member function `GetGattServerCallback` (lines 295-300): `GetCallback` followed by a
static cast. -/
def GetGattServerCallback (server_id : Int) : M (Option IBluetoothGattServerCallback) :=
  GetCallback server_id

/-- The member function `GetGattServer` (lines 302-306): `GetInstance` followed by a static
pointer cast. -/
def GetGattServer (server_id : Int) : M (Option GattServer) :=
  GetInstance server_id

/-- The command `BeginServiceDeclaration` (lines 65-91). -/
def BeginServiceDeclaration (server_id : Int) (is_primary : Bool) (uuid : UUID)
    (out_id : OutPtr) (_aidl_return : OutPtr) : M Status := do
  CHECK (out_id != .nullptr)
  let gatt_server ← GetGattServer server_id
  match gatt_server with
  | none =>
    store_aidl_return _aidl_return false
    return Status.ok
  | some gatt_server =>
    let service_id ← call gatt_server (.BeginServiceDeclaration uuid is_primary)
      (gatt_server.BeginServiceDeclaration uuid is_primary)
    match service_id with
    | none =>
      store_aidl_return _aidl_return false
      return Status.ok
    | some service_id =>
      store_out_id out_id service_id
      store_aidl_return _aidl_return true
      return Status.ok

/-- The command `AddCharacteristic` (lines 93-119). -/
def AddCharacteristic (server_id : Int) (uuid : UUID) (properties permissions : Int)
    (out_id : OutPtr) (_aidl_return : OutPtr) : M Status := do
  CHECK (out_id != .nullptr)
  let gatt_server ← GetGattServer server_id
  match gatt_server with
  | none =>
    store_aidl_return _aidl_return false
    return Status.ok
  | some gatt_server =>
    let char_id ← call gatt_server (.AddCharacteristic uuid properties permissions)
      (gatt_server.AddCharacteristic uuid properties permissions)
    match char_id with
    | none =>
      store_aidl_return _aidl_return false
      return Status.ok
    | some char_id =>
      store_out_id out_id char_id
      store_aidl_return _aidl_return true
      return Status.ok

/-- The command `AddDescriptor` (lines 121-146). -/
def AddDescriptor (server_id : Int) (uuid : UUID) (permissions : Int)
    (out_id : OutPtr) (_aidl_return : OutPtr) : M Status := do
  CHECK (out_id != .nullptr)
  let gatt_server ← GetGattServer server_id
  match gatt_server with
  | none =>
    store_aidl_return _aidl_return false
    return Status.ok
  | some gatt_server =>
    let desc_id ← call gatt_server (.AddDescriptor uuid permissions)
      (gatt_server.AddDescriptor uuid permissions)
    match desc_id with
    | none =>
      store_aidl_return _aidl_return false
      return Status.ok
    | some desc_id =>
      store_out_id out_id desc_id
      store_aidl_return _aidl_return true
      return Status.ok

/-- The body of the lambda built in `EndServiceDeclaration` (lines 171-179), after the
promotion of the weak pointer has succeeded. -/
def ServiceAddedClosure.body (c : ServiceAddedClosure) (status : BLEStatus)
    (service_id : GattIdentifier) : M Unit := do
  let gatt_cb ← GetGattServerCallback c.server_id
  match gatt_cb with
  | none => return ()
  | some gatt_cb => deliver gatt_cb (.OnServiceAdded status service_id)

/-- An invocation of the lambda built in `EndServiceDeclaration` (lines 163-180), by the
Engine, with the Engine's arguments. `weak_ptr_to_this` is what the captured weak pointer refers to at
that time: `none` when the dispatcher has been destroyed (`promote()` yields null),
else the dispatcher in its current state. -/
def ServiceAddedClosure.invoke (c : ServiceAddedClosure) (status : BLEStatus)
    (service_id : GattIdentifier) (weak_ptr_to_this : Option Dispatcher) :
    Run (Option Dispatcher) Unit :=
  match weak_ptr_to_this with
  | none => ⟨[], none, .ok ()⟩
  | some sp_to_this =>
    let r := c.body status service_id sp_to_this
    ⟨r.trace, some r.state, r.result⟩

/-- The command `EndServiceDeclaration` (lines 148-190). -/
def EndServiceDeclaration (server_id : Int) (_aidl_return : OutPtr) : M Status := do
  let gatt_server ← GetGattServer server_id
  match gatt_server with
  | none =>
    store_aidl_return _aidl_return false
    return Status.ok
  | some gatt_server =>
    let callback : ServiceAddedClosure := ⟨server_id⟩
    let accepted ← call gatt_server (.EndServiceDeclaration callback)
      (gatt_server.EndServiceDeclaration callback)
    if !accepted then
      store_aidl_return _aidl_return false
      return Status.ok
    else
      store_aidl_return _aidl_return true
      return Status.ok

/-- The command `SendResponse` (lines 192-210). -/
def SendResponse (server_id : Int) (device_address : String16) (request_id status offset : Int)
    (value : Bytes) (_aidl_return : OutPtr) : M Status := do
  let gatt_server ← GetGattServer server_id
  match gatt_server with
  | none =>
    store_aidl_return _aidl_return false
    return Status.ok
  | some gatt_server =>
    let sent ← call gatt_server
      (.SendResponse (toStdString device_address) request_id status offset value)
      (gatt_server.SendResponse (toStdString device_address) request_id status offset value)
    store_aidl_return _aidl_return sent
    return Status.ok

/-- The body of the lambda built in `SendNotification` (lines 236-244), after the promotion
of the weak pointer has succeeded. -/
def NotificationSentClosure.body (c : NotificationSentClosure) (error : GATTError) :
    M Unit := do
  let gatt_cb ← GetGattServerCallback c.server_id
  match gatt_cb with
  | none => return ()
  | some gatt_cb => deliver gatt_cb (.OnNotificationSent c.device_address error)

/-- An invocation of the lambda built in `SendNotification` (lines 229-245), by the Engine,
with the Engine's argument; `weak_ptr_to_this` as for `ServiceAddedClosure.invoke`. -/
def NotificationSentClosure.invoke (c : NotificationSentClosure) (error : GATTError)
    (weak_ptr_to_this : Option Dispatcher) : Run (Option Dispatcher) Unit :=
  match weak_ptr_to_this with
  | none => ⟨[], none, .ok ()⟩
  | some sp_to_this =>
    let r := c.body error sp_to_this
    ⟨r.trace, some r.state, r.result⟩

/-- The command `SendNotification` (lines 212-257). -/
def SendNotification (server_id : Int) (device_address : String16)
    (characteristic_id : GattIdentifier) (confirm : Bool) (value : Bytes)
    (_aidl_return : OutPtr) : M Status := do
  let gatt_server ← GetGattServer server_id
  match gatt_server with
  | none =>
    store_aidl_return _aidl_return false
    return Status.ok
  | some gatt_server =>
    let callback : NotificationSentClosure := ⟨server_id, device_address⟩
    let accepted ← call gatt_server
      (.SendNotification (toStdString device_address) characteristic_id confirm value callback)
      (gatt_server.SendNotification (toStdString device_address) characteristic_id confirm
        value callback)
    if !accepted then
      store_aidl_return _aidl_return false
      return Status.ok
    else
      store_aidl_return _aidl_return true
      return Status.ok

/-- The delegate method `OnCharacteristicReadRequest` (lines 259-275). The parameter
`gatt_server` is a raw pointer, on which `GetInstanceId()` is called. -/
def OnCharacteristicReadRequest (gatt_server : Option GattServer)
    (device_address : StdString) (request_id offset : Int) (is_long : Bool)
    (characteristic_id : GattIdentifier) : M Unit := do
  let server ← deref gatt_server
  let gatt_cb ← GetGattServerCallback server.GetInstanceId
  match gatt_cb with
  | none => return ()
  | some gatt_cb =>
    deliver gatt_cb (.OnCharacteristicReadRequest (toString16 device_address) request_id
      offset is_long characteristic_id)

/-- The delegate method `OnDescriptorReadRequest` (lines 277-293). -/
def OnDescriptorReadRequest (gatt_server : Option GattServer)
    (device_address : StdString) (request_id offset : Int) (is_long : Bool)
    (descriptor_id : GattIdentifier) : M Unit := do
  let server ← deref gatt_server
  let gatt_cb ← GetGattServerCallback server.GetInstanceId
  match gatt_cb with
  | none => return ()
  | some gatt_cb =>
    deliver gatt_cb (.OnDescriptorReadRequest (toString16 device_address) request_id
      offset is_long descriptor_id)

/-- The member function `OnRegisterInstanceImpl` (lines 308-322). `inst` is the parameter
`instance`, a raw pointer: `SetDelegate` is called on it first, whatever the status, and
`GetInstanceId()` only when the status is `BLE_STATUS_SUCCESS`. The arguments of
`OnServerRegistered` are evaluated before the call on `cb`. The `VLOG(1)` line is left
out: with verbose logging off it evaluates nothing. -/
def OnRegisterInstanceImpl (status : BLEStatus)
    (callback : Option IBluetoothGattServerCallback) (inst : Option GattServer) :
    M Unit := do
  let gatt_server ← deref inst
  call gatt_server .SetDelegate ()
  let server_id ←
    if status == BLE_STATUS_SUCCESS then do
      let i ← deref inst
      pure i.GetInstanceId
    else
      pure kInvalidInstanceId
  let cb ← deref callback
  deliver cb (.OnServerRegistered status server_id)

/-- The delegate method `OnCharacteristicWriteRequest` (lines 324-341). -/
def OnCharacteristicWriteRequest (gatt_server : Option GattServer)
    (device_address : StdString) (request_id offset : Int)
    (is_prepare_write need_response : Bool) (value : Bytes)
    (characteristic_id : GattIdentifier) : M Unit := do
  let server ← deref gatt_server
  let gatt_cb ← GetGattServerCallback server.GetInstanceId
  match gatt_cb with
  | none => return ()
  | some gatt_cb =>
    deliver gatt_cb (.OnCharacteristicWriteRequest (toString16 device_address) request_id
      offset is_prepare_write need_response value characteristic_id)

/-- The delegate method `OnDescriptorWriteRequest` (lines 343-360). -/
def OnDescriptorWriteRequest (gatt_server : Option GattServer)
    (device_address : StdString) (request_id offset : Int)
    (is_prepare_write need_response : Bool) (value : Bytes)
    (descriptor_id : GattIdentifier) : M Unit := do
  let server ← deref gatt_server
  let gatt_cb ← GetGattServerCallback server.GetInstanceId
  match gatt_cb with
  | none => return ()
  | some gatt_cb =>
    deliver gatt_cb (.OnDescriptorWriteRequest (toString16 device_address) request_id
      offset is_prepare_write need_response value descriptor_id)

/-- The delegate method `OnExecuteWriteRequest` (lines 362-377). -/
def OnExecuteWriteRequest (gatt_server : Option GattServer)
    (device_address : StdString) (request_id : Int) (is_execute : Bool) : M Unit := do
  let server ← deref gatt_server
  let gatt_cb ← GetGattServerCallback server.GetInstanceId
  match gatt_cb with
  | none => return ()
  | some gatt_cb =>
    deliver gatt_cb (.OnExecuteWriteRequest (toString16 device_address) request_id
      is_execute)

/-- The delegate method `OnConnectionStateChanged` (lines 379-392). -/
def OnConnectionStateChanged (gatt_server : Option GattServer)
    (device_address : StdString) (connected : Bool) : M Unit := do
  let server ← deref gatt_server
  let gatt_cb ← GetGattServerCallback server.GetInstanceId
  match gatt_cb with
  | none => return ()
  | some gatt_cb =>
    deliver gatt_cb (.OnConnectionStateChanged (toString16 device_address) connected)

/-! ## What a run shows to the outside -/

/-- The value an action stores through `_aidl_return`, if it is such a store. -/
def Action.stored_reply : Action → Option Bool
  | .store_aidl_return b => some b
  | _ => none

/-- The value an action stores through `out_id`, if it is such a store. -/
def Action.stored_out_id : Action → Option GattIdentifier
  | .store_out_id v => some v
  | _ => none

/-- The Engine call an action makes, with the Engine object it is made on. -/
def Action.engine_call : Action → Option (Nat × EngineCall)
  | .engine a c => some (a, c)
  | _ => none

/-- The event an action delivers, with the callback it is delivered to. -/
def Action.delivery : Action → Option (IBluetoothGattServerCallback × Event)
  | .deliver cb e => some (cb, e)
  | _ => none

/-- The registry lookup an action makes. -/
def Action.lookup : Action → Option Int
  | .GetInstance i => some i
  | .GetCallback i => some i
  | _ => none

/-- The reply of a run: what `*_aidl_return` holds at the end, `none` if never stored. -/
def Run.reply {σ α : Type} (r : Run σ α) : Option Bool :=
  (r.trace.filterMap Action.stored_reply).getLast?

/-- What `*out_id` holds at the end of a run, `none` if never stored. -/
def Run.out_id {σ α : Type} (r : Run σ α) : Option GattIdentifier :=
  (r.trace.filterMap Action.stored_out_id).getLast?

/-- The calls a run makes on Engine objects, in order. -/
def Run.engine_calls {σ α : Type} (r : Run σ α) : List (Nat × EngineCall) :=
  r.trace.filterMap Action.engine_call

/-- The events a run delivers to remote callbacks, in order. -/
def Run.delivered {σ α : Type} (r : Run σ α) :
    List (IBluetoothGattServerCallback × Event) :=
  r.trace.filterMap Action.delivery

/-- The registry lookups of a run, in order. -/
def Run.lookups {σ α : Type} (r : Run σ α) : List Int :=
  r.trace.filterMap Action.lookup

/-- What the remote caller of a command observes: the transport status (or the fault),
the reply, and the contents of the output slot. -/
def Run.observed {σ : Type} (r : Run σ Status) :
    Except Fault Status × Option Bool × Option GattIdentifier :=
  (r.result, r.reply, r.out_id)

/-- The outcome the spec calls a logical failure: the command returns `Status::ok()`
with reply `false`, having made no call on an Engine object and delivered no event. -/
def LogicalFailure (r : Run Dispatcher Status) : Prop :=
  r.result = .ok Status.ok ∧ r.reply = some false ∧ r.engine_calls = [] ∧ r.delivered = []

/-- The events a forwarder or a completion closure delivers, given the callback the
registry resolves at that time: nothing when there is none, else the one event to that
callback. -/
def routed (gatt_cb : Option IBluetoothGattServerCallback) (event : Event) :
    List (IBluetoothGattServerCallback × Event) :=
  match gatt_cb with
  | none => []
  | some cb => [(cb, event)]

/-! ## Concrete objects on which the theorems are instantiated -/

/-- An Engine object with instance id 1: it gives no handle for the UUID 0 and the handle
`uuid.value` for any other UUID, accepts `EndServiceDeclaration`, and sends a response or
a notification exactly when the value is not empty. -/
def server_A : GattServer where
  addr := 4096
  GetInstanceId := 1
  BeginServiceDeclaration := fun uuid _ => if uuid.value = 0 then none else some ⟨uuid.value⟩
  AddCharacteristic := fun uuid _ _ => if uuid.value = 0 then none else some ⟨uuid.value⟩
  AddDescriptor := fun uuid _ => if uuid.value = 0 then none else some ⟨uuid.value⟩
  EndServiceDeclaration := fun _ => true
  SendResponse := fun _ _ _ _ value => !value.isEmpty
  SendNotification := fun _ _ _ value _ => !value.isEmpty

/-- Two remote callback proxies. -/
def callback_A : IBluetoothGattServerCallback := ⟨7⟩

/-- The second remote callback proxy. -/
def callback_B : IBluetoothGattServerCallback := ⟨8⟩

/-- A dispatcher with one registration: instance `server_A` and callback `callback_A`
under id 1. -/
def registered_A : Dispatcher where
  id_to_instance := fun i => if i = 1 then some server_A else none
  id_to_cb := fun i => if i = 1 then some callback_A else none

/-- A dispatcher in which id 1 resolves to `callback_B`. -/
def registered_B : Dispatcher where
  id_to_instance := fun i => if i = 1 then some server_A else none
  id_to_cb := fun i => if i = 1 then some callback_B else none

/-- A device address as the remote side writes it. -/
def address_16 : String16 := ⟨"01:02:03:0A:0B:0C".toList⟩

/-! ## Theorems -/

/-- C1: for a `server_id` for which `GetGattServer` yields nothing, and non-null output
slots, each of the six commands returns `Status::ok()` with reply `false`, makes no call
on any Engine object and delivers no event to any remote callback. -/
theorem unknown_server_id_is_logical_failure (d : Dispatcher) (server_id : Int)
    (is_primary confirm : Bool) (uuid : UUID) (properties permissions : Int)
    (device_address : String16) (request_id status offset : Int) (value : Bytes)
    (characteristic_id : GattIdentifier)
    (h : (GetGattServer server_id d).result = .ok none) :
    LogicalFailure (BeginServiceDeclaration server_id is_primary uuid .valid .valid d) ∧
    LogicalFailure (AddCharacteristic server_id uuid properties permissions .valid .valid d) ∧
    LogicalFailure (AddDescriptor server_id uuid permissions .valid .valid d) ∧
    LogicalFailure (EndServiceDeclaration server_id .valid d) ∧
    LogicalFailure
      (SendResponse server_id device_address request_id status offset value .valid d) ∧
    LogicalFailure
      (SendNotification server_id device_address characteristic_id confirm value .valid d) := by
  have h0 : d.id_to_instance server_id = none := by
    simpa [GetGattServer, GetInstance] using h
  simp [LogicalFailure, BeginServiceDeclaration, AddCharacteristic, AddDescriptor,
    EndServiceDeclaration, SendResponse, SendNotification, CHECK, GetGattServer, GetInstance,
    store_aidl_return, act, bind, pure, M.bind, M.pure, h0, Run.reply, Run.engine_calls,
    Run.delivered, Action.stored_reply, Action.engine_call, Action.delivery]

/-- Witness of C1: id 2 is unknown to `registered_A`, and the six commands fail logically. -/
theorem unknown_server_id_is_logical_failure_witness :
    (GetGattServer 2 registered_A).result = .ok none ∧
    (LogicalFailure (BeginServiceDeclaration 2 true ⟨5⟩ .valid .valid registered_A) ∧
    LogicalFailure (AddCharacteristic 2 ⟨5⟩ 2 1 .valid .valid registered_A) ∧
    LogicalFailure (AddDescriptor 2 ⟨5⟩ 1 .valid .valid registered_A) ∧
    LogicalFailure (EndServiceDeclaration 2 .valid registered_A) ∧
    LogicalFailure (SendResponse 2 address_16 3 0 0 [1, 2] .valid registered_A) ∧
    LogicalFailure (SendNotification 2 address_16 ⟨5⟩ false [1, 2] .valid registered_A)) :=
  ⟨rfl, unknown_server_id_is_logical_failure registered_A 2 true false ⟨5⟩ 2 1 address_16
    3 0 0 [1, 2] ⟨5⟩ rfl⟩

/-- C2: a completion closure of `EndServiceDeclaration` or of `SendNotification` that is
invoked after the dispatcher has been destroyed (the promotion of the weak pointer fails)
returns normally without any action: no registry lookup, no Engine call, no event. -/
theorem completion_after_destruction_is_noop (server_id : Int) (device_address : String16)
    (status : BLEStatus) (service_id : GattIdentifier) (error : GATTError) :
    (ServiceAddedClosure.mk server_id).invoke status service_id none = ⟨[], none, .ok ()⟩ ∧
    (NotificationSentClosure.mk server_id device_address).invoke error none
      = ⟨[], none, .ok ()⟩ ∧
    ((ServiceAddedClosure.mk server_id).invoke status service_id none).lookups = [] ∧
    ((ServiceAddedClosure.mk server_id).invoke status service_id none).delivered = [] ∧
    ((NotificationSentClosure.mk server_id device_address).invoke error none).lookups = [] ∧
    ((NotificationSentClosure.mk server_id device_address).invoke error none).delivered
      = [] := by
  simp [ServiceAddedClosure.invoke, NotificationSentClosure.invoke, Run.lookups, Run.delivered]

/-- C3: a completion closure for instance id `i` that is invoked while the dispatcher is
alive and the registry has no callback for `i` returns normally, delivers no event to any
callback, makes no Engine call and leaves the dispatcher as it was, so that whatever is
run later (`later`) gives the same result as if the closure had not been invoked. -/
theorem completion_for_unregistered_instance_is_dropped (d : Dispatcher) (i : Int)
    (device_address : String16) (status : BLEStatus) (service_id : GattIdentifier)
    (error : GATTError) {β : Type} (later : Option Dispatcher → β)
    (h : (GetGattServerCallback i d).result = .ok none) :
    ((ServiceAddedClosure.mk i).invoke status service_id (some d)).result = .ok () ∧
    ((ServiceAddedClosure.mk i).invoke status service_id (some d)).delivered = [] ∧
    ((ServiceAddedClosure.mk i).invoke status service_id (some d)).engine_calls = [] ∧
    ((ServiceAddedClosure.mk i).invoke status service_id (some d)).state = some d ∧
    later ((ServiceAddedClosure.mk i).invoke status service_id (some d)).state
      = later (some d) ∧
    ((NotificationSentClosure.mk i device_address).invoke error (some d)).result = .ok () ∧
    ((NotificationSentClosure.mk i device_address).invoke error (some d)).delivered = [] ∧
    ((NotificationSentClosure.mk i device_address).invoke error (some d)).engine_calls = [] ∧
    ((NotificationSentClosure.mk i device_address).invoke error (some d)).state = some d ∧
    later ((NotificationSentClosure.mk i device_address).invoke error (some d)).state
      = later (some d) := by
  have h0 : d.id_to_cb i = none := by
    simpa [GetGattServerCallback, GetCallback] using h
  simp [ServiceAddedClosure.invoke, NotificationSentClosure.invoke, ServiceAddedClosure.body,
    NotificationSentClosure.body, GetGattServerCallback, GetCallback, bind, pure, M.bind,
    M.pure, h0, Run.delivered, Run.engine_calls, Action.delivery, Action.engine_call]

/-- Witness of C3: in `registered_A` id 2 has no entry; a completion for id 2 is dropped,
and a later completion for id 1 still delivers its event to `callback_A`. -/
theorem completion_for_unregistered_instance_is_dropped_witness :
    (GetGattServerCallback 2 registered_A).result = .ok none ∧
    (((ServiceAddedClosure.mk 2).invoke 0 ⟨5⟩ (some registered_A)).result = .ok () ∧
    ((ServiceAddedClosure.mk 2).invoke 0 ⟨5⟩ (some registered_A)).delivered = [] ∧
    ((ServiceAddedClosure.mk 2).invoke 0 ⟨5⟩ (some registered_A)).engine_calls = [] ∧
    ((ServiceAddedClosure.mk 2).invoke 0 ⟨5⟩ (some registered_A)).state
      = some registered_A ∧
    ((ServiceAddedClosure.mk 1).invoke 0 ⟨6⟩
        ((ServiceAddedClosure.mk 2).invoke 0 ⟨5⟩ (some registered_A)).state).delivered
      = ((ServiceAddedClosure.mk 1).invoke 0 ⟨6⟩ (some registered_A)).delivered ∧
    ((NotificationSentClosure.mk 2 address_16).invoke 0 (some registered_A)).result
      = .ok () ∧
    ((NotificationSentClosure.mk 2 address_16).invoke 0 (some registered_A)).delivered = [] ∧
    ((NotificationSentClosure.mk 2 address_16).invoke 0 (some registered_A)).engine_calls
      = [] ∧
    ((NotificationSentClosure.mk 2 address_16).invoke 0 (some registered_A)).state
      = some registered_A ∧
    ((ServiceAddedClosure.mk 1).invoke 0 ⟨6⟩
        ((NotificationSentClosure.mk 2 address_16).invoke 0 (some registered_A)).state).delivered
      = ((ServiceAddedClosure.mk 1).invoke 0 ⟨6⟩ (some registered_A)).delivered) :=
  ⟨rfl, completion_for_unregistered_instance_is_dropped registered_A 2 address_16 0 ⟨5⟩ 0
    (fun w => ((ServiceAddedClosure.mk 1).invoke 0 ⟨6⟩ w).delivered) rfl⟩

/-- C4: each of the six delegate methods, called by a live Engine object, returns normally
and delivers what `routed` says: nothing when the registry has no callback for the
object's instance id, else exactly one event of the same kind to the callback registered
under that id, with the Engine's request id, offset, flags, value and attribute identifier
and with the text of the Engine's device address. -/
theorem delegate_events_are_routed_by_instance_id (d : Dispatcher) (g : GattServer)
    (device_address : StdString) (request_id offset : Int)
    (is_long is_prepare_write need_response is_execute connected : Bool) (value : Bytes)
    (attribute_id : GattIdentifier) :
    (toString16 device_address).chars = device_address.chars ∧
    (OnCharacteristicReadRequest (some g) device_address request_id offset is_long
        attribute_id d).result = .ok () ∧
    (OnCharacteristicReadRequest (some g) device_address request_id offset is_long
        attribute_id d).delivered
      = routed (d.id_to_cb g.GetInstanceId) (.OnCharacteristicReadRequest
          (toString16 device_address) request_id offset is_long attribute_id) ∧
    (OnDescriptorReadRequest (some g) device_address request_id offset is_long
        attribute_id d).result = .ok () ∧
    (OnDescriptorReadRequest (some g) device_address request_id offset is_long
        attribute_id d).delivered
      = routed (d.id_to_cb g.GetInstanceId) (.OnDescriptorReadRequest
          (toString16 device_address) request_id offset is_long attribute_id) ∧
    (OnCharacteristicWriteRequest (some g) device_address request_id offset is_prepare_write
        need_response value attribute_id d).result = .ok () ∧
    (OnCharacteristicWriteRequest (some g) device_address request_id offset is_prepare_write
        need_response value attribute_id d).delivered
      = routed (d.id_to_cb g.GetInstanceId) (.OnCharacteristicWriteRequest
          (toString16 device_address) request_id offset is_prepare_write need_response value
          attribute_id) ∧
    (OnDescriptorWriteRequest (some g) device_address request_id offset is_prepare_write
        need_response value attribute_id d).result = .ok () ∧
    (OnDescriptorWriteRequest (some g) device_address request_id offset is_prepare_write
        need_response value attribute_id d).delivered
      = routed (d.id_to_cb g.GetInstanceId) (.OnDescriptorWriteRequest
          (toString16 device_address) request_id offset is_prepare_write need_response value
          attribute_id) ∧
    (OnExecuteWriteRequest (some g) device_address request_id is_execute d).result
      = .ok () ∧
    (OnExecuteWriteRequest (some g) device_address request_id is_execute d).delivered
      = routed (d.id_to_cb g.GetInstanceId) (.OnExecuteWriteRequest
          (toString16 device_address) request_id is_execute) ∧
    (OnConnectionStateChanged (some g) device_address connected d).result = .ok () ∧
    (OnConnectionStateChanged (some g) device_address connected d).delivered
      = routed (d.id_to_cb g.GetInstanceId) (.OnConnectionStateChanged
          (toString16 device_address) connected) := by
  cases hcb : d.id_to_cb g.GetInstanceId <;>
  simp [OnCharacteristicReadRequest, OnDescriptorReadRequest, OnCharacteristicWriteRequest,
    OnDescriptorWriteRequest, OnExecuteWriteRequest, OnConnectionStateChanged, routed,
    toString16, deref, deliver, act, GetGattServerCallback, GetCallback, bind, pure, M.bind,
    M.pure, hcb, Run.delivered, Action.delivery]

/-- With a live instance and a pending remote callback, for every status,
`OnRegisterInstanceImpl` returns normally and delivers exactly one event, to that callback:
`OnServerRegistered(status, id)` with the status it was given and with the instance's id
when the status is `BLE_STATUS_SUCCESS`, `-1` for every other status. -/
theorem OnRegisterInstanceImpl_with_live_instance (d : Dispatcher)
    (status : BLEStatus) (callback : IBluetoothGattServerCallback) (g : GattServer) :
    (OnRegisterInstanceImpl status (some callback) (some g) d).result = .ok () ∧
    (OnRegisterInstanceImpl status (some callback) (some g) d).delivered
      = [(callback, .OnServerRegistered status
          (if status = BLE_STATUS_SUCCESS then g.GetInstanceId else -1))] := by
  by_cases hs : status = BLE_STATUS_SUCCESS <;>
  simp [OnRegisterInstanceImpl, deref, call, deliver, act, bind, pure, M.bind, M.pure, hs,
    Run.delivered, Action.delivery, kInvalidInstanceId]

/-- C5, the code at a failure status (status 1) with a pending callback and a null
instance: the run stops at the null dereference of the unguarded `SetDelegate` call and
delivers nothing, so the event `OnServerRegistered(1, -1)` that the spec requires never
reaches the callback; the same call with a live instance does deliver it. -/
theorem OnRegisterInstanceImpl_failure_event_lost_without_instance :
    (1 : BLEStatus) ≠ BLE_STATUS_SUCCESS ∧
    (OnRegisterInstanceImpl 1 (some callback_A) none registered_A).result
      = .error .null_dereference ∧
    (OnRegisterInstanceImpl 1 (some callback_A) none registered_A).delivered = [] ∧
    (OnRegisterInstanceImpl 1 (some callback_A) none registered_A).delivered
      ≠ [(callback_A, .OnServerRegistered 1 kInvalidInstanceId)] ∧
    (OnRegisterInstanceImpl 1 (some callback_A) (some server_A) registered_A).delivered
      = [(callback_A, .OnServerRegistered 1 kInvalidInstanceId)] := by
  refine ⟨by decide, rfl, rfl, ?_, rfl⟩
  rw [show (OnRegisterInstanceImpl 1 (some callback_A) none registered_A).delivered = []
    from rfl]
  simp

/-- C6, the code at a failure status (status 1): with a live instance
`OnRegisterInstanceImpl` calls `SetDelegate` on it all the same, before it delivers
`OnServerRegistered(1, -1)`; with a null instance the unguarded `SetDelegate` call
dereferences the null pointer, and no event is delivered. -/
theorem OnRegisterInstanceImpl_calls_SetDelegate_on_failure :
    (1 : BLEStatus) ≠ BLE_STATUS_SUCCESS ∧
    (OnRegisterInstanceImpl 1 (some callback_A) (some server_A) registered_A).trace
      = [.engine server_A.addr .SetDelegate,
         .deliver callback_A (.OnServerRegistered 1 (-1))] ∧
    (OnRegisterInstanceImpl 1 (some callback_A) none registered_A).result
      = .error .null_dereference ∧
    (OnRegisterInstanceImpl 1 (some callback_A) none registered_A).trace = [] := by
  refine ⟨by decide, rfl, rfl, rfl⟩

/-- C7: for a registered `server_id` and non-null output slots, each of
`BeginServiceDeclaration`, `AddCharacteristic` and `AddDescriptor` returns `Status::ok()`,
makes exactly one Engine call, on the registered instance and with its own uuid and
flags, replies `true` exactly when the Engine gave a handle, and stores exactly that
handle through `out_id`; when the Engine gave none, the caller observes what it observes
for a `server_id` unknown to a dispatcher `d0`. -/
theorem declaration_commands_forward_and_report_handle (d d0 : Dispatcher)
    (server_id server_id0 : Int) (g : GattServer) (is_primary : Bool) (uuid : UUID)
    (properties permissions : Int)
    (h : (GetGattServer server_id d).result = .ok (some g))
    (h0 : (GetGattServer server_id0 d0).result = .ok none) :
    ((BeginServiceDeclaration server_id is_primary uuid .valid .valid d).result
        = .ok Status.ok ∧
      (BeginServiceDeclaration server_id is_primary uuid .valid .valid d).engine_calls
        = [(g.addr, .BeginServiceDeclaration uuid is_primary)] ∧
      (BeginServiceDeclaration server_id is_primary uuid .valid .valid d).reply
        = some (g.BeginServiceDeclaration uuid is_primary).isSome ∧
      (BeginServiceDeclaration server_id is_primary uuid .valid .valid d).out_id
        = g.BeginServiceDeclaration uuid is_primary ∧
      (g.BeginServiceDeclaration uuid is_primary = none →
        (BeginServiceDeclaration server_id is_primary uuid .valid .valid d).observed
          = (BeginServiceDeclaration server_id0 is_primary uuid .valid .valid d0).observed)) ∧
    ((AddCharacteristic server_id uuid properties permissions .valid .valid d).result
        = .ok Status.ok ∧
      (AddCharacteristic server_id uuid properties permissions .valid .valid d).engine_calls
        = [(g.addr, .AddCharacteristic uuid properties permissions)] ∧
      (AddCharacteristic server_id uuid properties permissions .valid .valid d).reply
        = some (g.AddCharacteristic uuid properties permissions).isSome ∧
      (AddCharacteristic server_id uuid properties permissions .valid .valid d).out_id
        = g.AddCharacteristic uuid properties permissions ∧
      (g.AddCharacteristic uuid properties permissions = none →
        (AddCharacteristic server_id uuid properties permissions .valid .valid d).observed
          = (AddCharacteristic server_id0 uuid properties permissions .valid .valid
              d0).observed)) ∧
    ((AddDescriptor server_id uuid permissions .valid .valid d).result = .ok Status.ok ∧
      (AddDescriptor server_id uuid permissions .valid .valid d).engine_calls
        = [(g.addr, .AddDescriptor uuid permissions)] ∧
      (AddDescriptor server_id uuid permissions .valid .valid d).reply
        = some (g.AddDescriptor uuid permissions).isSome ∧
      (AddDescriptor server_id uuid permissions .valid .valid d).out_id
        = g.AddDescriptor uuid permissions ∧
      (g.AddDescriptor uuid permissions = none →
        (AddDescriptor server_id uuid permissions .valid .valid d).observed
          = (AddDescriptor server_id0 uuid permissions .valid .valid d0).observed)) := by
  have hg : d.id_to_instance server_id = some g := by
    simpa [GetGattServer, GetInstance] using h
  have hn : d0.id_to_instance server_id0 = none := by
    simpa [GetGattServer, GetInstance] using h0
  refine ⟨?_, ?_, ?_⟩
  · cases hr : g.BeginServiceDeclaration uuid is_primary <;>
    simp [BeginServiceDeclaration, CHECK, GetGattServer, GetInstance, call, store_out_id,
      store_aidl_return, act, bind, pure, M.bind, M.pure, hg, hn, hr, Run.reply, Run.out_id,
      Run.engine_calls, Run.observed, Action.stored_reply, Action.stored_out_id,
      Action.engine_call]
  · cases hr : g.AddCharacteristic uuid properties permissions <;>
    simp [AddCharacteristic, CHECK, GetGattServer, GetInstance, call, store_out_id,
      store_aidl_return, act, bind, pure, M.bind, M.pure, hg, hn, hr, Run.reply, Run.out_id,
      Run.engine_calls, Run.observed, Action.stored_reply, Action.stored_out_id,
      Action.engine_call]
  · cases hr : g.AddDescriptor uuid permissions <;>
    simp [AddDescriptor, CHECK, GetGattServer, GetInstance, call, store_out_id,
      store_aidl_return, act, bind, pure, M.bind, M.pure, hg, hn, hr, Run.reply, Run.out_id,
      Run.engine_calls, Run.observed, Action.stored_reply, Action.stored_out_id,
      Action.engine_call]

/-- Witness of C7: `server_A`, registered under id 1 in `registered_A`, gives no handle
for the UUID 0; id 2 is unknown. -/
theorem declaration_commands_forward_and_report_handle_witness :
    (GetGattServer 1 registered_A).result = .ok (some server_A) ∧
    (GetGattServer 2 registered_A).result = .ok none ∧
    server_A.BeginServiceDeclaration ⟨0⟩ true = none ∧
    server_A.AddCharacteristic ⟨0⟩ 2 1 = none ∧
    server_A.AddDescriptor ⟨0⟩ 1 = none ∧
    (((BeginServiceDeclaration 1 true ⟨0⟩ .valid .valid registered_A).result
        = .ok Status.ok ∧
      (BeginServiceDeclaration 1 true ⟨0⟩ .valid .valid registered_A).engine_calls
        = [(server_A.addr, .BeginServiceDeclaration ⟨0⟩ true)] ∧
      (BeginServiceDeclaration 1 true ⟨0⟩ .valid .valid registered_A).reply
        = some (server_A.BeginServiceDeclaration ⟨0⟩ true).isSome ∧
      (BeginServiceDeclaration 1 true ⟨0⟩ .valid .valid registered_A).out_id
        = server_A.BeginServiceDeclaration ⟨0⟩ true ∧
      (server_A.BeginServiceDeclaration ⟨0⟩ true = none →
        (BeginServiceDeclaration 1 true ⟨0⟩ .valid .valid registered_A).observed
          = (BeginServiceDeclaration 2 true ⟨0⟩ .valid .valid registered_A).observed)) ∧
    ((AddCharacteristic 1 ⟨0⟩ 2 1 .valid .valid registered_A).result = .ok Status.ok ∧
      (AddCharacteristic 1 ⟨0⟩ 2 1 .valid .valid registered_A).engine_calls
        = [(server_A.addr, .AddCharacteristic ⟨0⟩ 2 1)] ∧
      (AddCharacteristic 1 ⟨0⟩ 2 1 .valid .valid registered_A).reply
        = some (server_A.AddCharacteristic ⟨0⟩ 2 1).isSome ∧
      (AddCharacteristic 1 ⟨0⟩ 2 1 .valid .valid registered_A).out_id
        = server_A.AddCharacteristic ⟨0⟩ 2 1 ∧
      (server_A.AddCharacteristic ⟨0⟩ 2 1 = none →
        (AddCharacteristic 1 ⟨0⟩ 2 1 .valid .valid registered_A).observed
          = (AddCharacteristic 2 ⟨0⟩ 2 1 .valid .valid registered_A).observed)) ∧
    ((AddDescriptor 1 ⟨0⟩ 1 .valid .valid registered_A).result = .ok Status.ok ∧
      (AddDescriptor 1 ⟨0⟩ 1 .valid .valid registered_A).engine_calls
        = [(server_A.addr, .AddDescriptor ⟨0⟩ 1)] ∧
      (AddDescriptor 1 ⟨0⟩ 1 .valid .valid registered_A).reply
        = some (server_A.AddDescriptor ⟨0⟩ 1).isSome ∧
      (AddDescriptor 1 ⟨0⟩ 1 .valid .valid registered_A).out_id
        = server_A.AddDescriptor ⟨0⟩ 1 ∧
      (server_A.AddDescriptor ⟨0⟩ 1 = none →
        (AddDescriptor 1 ⟨0⟩ 1 .valid .valid registered_A).observed
          = (AddDescriptor 2 ⟨0⟩ 1 .valid .valid registered_A).observed))) :=
  ⟨rfl, rfl, rfl, rfl, rfl,
    declaration_commands_forward_and_report_handle registered_A registered_A 1 2 server_A
      true ⟨0⟩ 2 1 rfl rfl⟩

/-- C8: for a registered `server_id`, each of `EndServiceDeclaration`, `SendNotification`
and `SendResponse` returns `Status::ok()`, makes exactly one Engine call on the registered
instance, and replies the boolean that call returned; an invocation of a completion
closure, whenever and with whatever arguments (`w`, `s`, `sid`, `e`), stores no reply. -/
theorem reply_is_engine_acceptance (d : Dispatcher) (server_id : Int) (g : GattServer)
    (device_address : String16) (characteristic_id : GattIdentifier) (confirm : Bool)
    (request_id status offset : Int) (value : Bytes)
    (w : Option Dispatcher) (s : BLEStatus) (sid : GattIdentifier) (e : GATTError)
    (h : (GetGattServer server_id d).result = .ok (some g)) :
    ((EndServiceDeclaration server_id .valid d).result = .ok Status.ok ∧
      (EndServiceDeclaration server_id .valid d).engine_calls
        = [(g.addr, .EndServiceDeclaration ⟨server_id⟩)] ∧
      (EndServiceDeclaration server_id .valid d).reply
        = some (g.EndServiceDeclaration ⟨server_id⟩) ∧
      ((ServiceAddedClosure.mk server_id).invoke s sid w).reply = none) ∧
    ((SendNotification server_id device_address characteristic_id confirm value .valid
        d).result = .ok Status.ok ∧
      (SendNotification server_id device_address characteristic_id confirm value .valid
        d).engine_calls
        = [(g.addr, .SendNotification (toStdString device_address) characteristic_id confirm
            value ⟨server_id, device_address⟩)] ∧
      (SendNotification server_id device_address characteristic_id confirm value .valid
        d).reply
        = some (g.SendNotification (toStdString device_address) characteristic_id confirm
            value ⟨server_id, device_address⟩) ∧
      ((NotificationSentClosure.mk server_id device_address).invoke e w).reply = none) ∧
    ((SendResponse server_id device_address request_id status offset value .valid d).result
        = .ok Status.ok ∧
      (SendResponse server_id device_address request_id status offset value .valid
        d).engine_calls
        = [(g.addr, .SendResponse (toStdString device_address) request_id status offset
            value)] ∧
      (SendResponse server_id device_address request_id status offset value .valid d).reply
        = some (g.SendResponse (toStdString device_address) request_id status offset
            value)) := by
  have hg : d.id_to_instance server_id = some g := by
    simpa [GetGattServer, GetInstance] using h
  refine ⟨⟨?_, ?_, ?_, ?_⟩, ⟨?_, ?_, ?_, ?_⟩, ?_⟩
  · cases hr : g.EndServiceDeclaration ⟨server_id⟩ <;>
    simp [EndServiceDeclaration, GetGattServer, GetInstance, call, store_aidl_return, act,
      bind, pure, M.bind, M.pure, hg, hr]
  · cases hr : g.EndServiceDeclaration ⟨server_id⟩ <;>
    simp [EndServiceDeclaration, GetGattServer, GetInstance, call, store_aidl_return, act,
      bind, pure, M.bind, M.pure, hg, hr, Run.engine_calls, Action.engine_call]
  · cases hr : g.EndServiceDeclaration ⟨server_id⟩ <;>
    simp [EndServiceDeclaration, GetGattServer, GetInstance, call, store_aidl_return, act,
      bind, pure, M.bind, M.pure, hg, hr, Run.reply, Action.stored_reply]
  · cases w with
    | none => simp [ServiceAddedClosure.invoke, Run.reply]
    | some d1 =>
      cases hc : d1.id_to_cb server_id <;>
      simp [ServiceAddedClosure.invoke, ServiceAddedClosure.body, GetGattServerCallback,
        GetCallback, deliver, act, bind, pure, M.bind, M.pure, hc, Run.reply,
        Action.stored_reply]
  · cases hr : g.SendNotification (toStdString device_address) characteristic_id confirm
      value ⟨server_id, device_address⟩ <;>
    simp [SendNotification, GetGattServer, GetInstance, call, store_aidl_return, act,
      bind, pure, M.bind, M.pure, hg, hr]
  · cases hr : g.SendNotification (toStdString device_address) characteristic_id confirm
      value ⟨server_id, device_address⟩ <;>
    simp [SendNotification, GetGattServer, GetInstance, call, store_aidl_return, act,
      bind, pure, M.bind, M.pure, hg, hr, Run.engine_calls, Action.engine_call]
  · cases hr : g.SendNotification (toStdString device_address) characteristic_id confirm
      value ⟨server_id, device_address⟩ <;>
    simp [SendNotification, GetGattServer, GetInstance, call, store_aidl_return, act,
      bind, pure, M.bind, M.pure, hg, hr, Run.reply, Action.stored_reply]
  · cases w with
    | none => simp [NotificationSentClosure.invoke, Run.reply]
    | some d1 =>
      cases hc : d1.id_to_cb server_id <;>
      simp [NotificationSentClosure.invoke, NotificationSentClosure.body,
        GetGattServerCallback, GetCallback, deliver, act, bind, pure, M.bind, M.pure, hc,
        Run.reply, Action.stored_reply]
  · simp [SendResponse, GetGattServer, GetInstance, call, store_aidl_return, act,
      bind, pure, M.bind, M.pure, hg, Run.reply, Run.engine_calls, Action.stored_reply,
      Action.engine_call]

/-- C9: `BeginServiceDeclaration`, `AddCharacteristic` and `AddDescriptor` called with a
null `out_id` stop at the failed `CHECK`, for every dispatcher state and every other
argument, before any registry lookup, Engine call or store; called with a non-null
`out_id`, they never stop at a failed `CHECK`. -/
theorem null_out_id_is_fatal (d : Dispatcher) (server_id : Int) (is_primary : Bool)
    (uuid : UUID) (properties permissions : Int) (_aidl_return : OutPtr) :
    BeginServiceDeclaration server_id is_primary uuid .nullptr _aidl_return d
      = ⟨[], d, .error .check_failed⟩ ∧
    AddCharacteristic server_id uuid properties permissions .nullptr _aidl_return d
      = ⟨[], d, .error .check_failed⟩ ∧
    AddDescriptor server_id uuid permissions .nullptr _aidl_return d
      = ⟨[], d, .error .check_failed⟩ ∧
    (BeginServiceDeclaration server_id is_primary uuid .valid _aidl_return d).result
      ≠ .error .check_failed ∧
    (AddCharacteristic server_id uuid properties permissions .valid _aidl_return d).result
      ≠ .error .check_failed ∧
    (AddDescriptor server_id uuid permissions .valid _aidl_return d).result
      ≠ .error .check_failed := by
  refine ⟨?_, ?_, ?_, ?_, ?_, ?_⟩
  · simp [BeginServiceDeclaration, CHECK, fault, bind, M.bind]
  · simp [AddCharacteristic, CHECK, fault, bind, M.bind]
  · simp [AddDescriptor, CHECK, fault, bind, M.bind]
  · cases _aidl_return <;> cases hg : d.id_to_instance server_id with
    | none =>
      simp [BeginServiceDeclaration, CHECK, GetGattServer, GetInstance, fault,
        store_aidl_return, act, bind, pure, M.bind, M.pure, hg]
    | some g =>
      cases hr : g.BeginServiceDeclaration uuid is_primary <;>
      simp [BeginServiceDeclaration, CHECK, GetGattServer, GetInstance, fault, call,
        store_out_id, store_aidl_return, act, bind, pure, M.bind, M.pure, hg, hr]
  · cases _aidl_return <;> cases hg : d.id_to_instance server_id with
    | none =>
      simp [AddCharacteristic, CHECK, GetGattServer, GetInstance, fault,
        store_aidl_return, act, bind, pure, M.bind, M.pure, hg]
    | some g =>
      cases hr : g.AddCharacteristic uuid properties permissions <;>
      simp [AddCharacteristic, CHECK, GetGattServer, GetInstance, fault, call,
        store_out_id, store_aidl_return, act, bind, pure, M.bind, M.pure, hg, hr]
  · cases _aidl_return <;> cases hg : d.id_to_instance server_id with
    | none =>
      simp [AddDescriptor, CHECK, GetGattServer, GetInstance, fault,
        store_aidl_return, act, bind, pure, M.bind, M.pure, hg]
    | some g =>
      cases hr : g.AddDescriptor uuid permissions <;>
      simp [AddDescriptor, CHECK, GetGattServer, GetInstance, fault, call,
        store_out_id, store_aidl_return, act, bind, pure, M.bind, M.pure, hg, hr]

/-- Witness of C8: `server_A`, registered under id 1, accepts `EndServiceDeclaration` and
refuses to send an empty value. -/
theorem reply_is_engine_acceptance_witness :
    (GetGattServer 1 registered_A).result = .ok (some server_A) ∧
    (((EndServiceDeclaration 1 .valid registered_A).result = .ok Status.ok ∧
      (EndServiceDeclaration 1 .valid registered_A).engine_calls
        = [(server_A.addr, .EndServiceDeclaration ⟨1⟩)] ∧
      (EndServiceDeclaration 1 .valid registered_A).reply
        = some (server_A.EndServiceDeclaration ⟨1⟩) ∧
      ((ServiceAddedClosure.mk 1).invoke 0 ⟨5⟩ (some registered_B)).reply = none) ∧
    ((SendNotification 1 address_16 ⟨5⟩ true [] .valid registered_A).result
        = .ok Status.ok ∧
      (SendNotification 1 address_16 ⟨5⟩ true [] .valid registered_A).engine_calls
        = [(server_A.addr, .SendNotification (toStdString address_16) ⟨5⟩ true []
            ⟨1, address_16⟩)] ∧
      (SendNotification 1 address_16 ⟨5⟩ true [] .valid registered_A).reply
        = some (server_A.SendNotification (toStdString address_16) ⟨5⟩ true []
            ⟨1, address_16⟩) ∧
      ((NotificationSentClosure.mk 1 address_16).invoke 3 (some registered_B)).reply
        = none) ∧
    ((SendResponse 1 address_16 9 0 0 [] .valid registered_A).result = .ok Status.ok ∧
      (SendResponse 1 address_16 9 0 0 [] .valid registered_A).engine_calls
        = [(server_A.addr, .SendResponse (toStdString address_16) 9 0 0 [])] ∧
      (SendResponse 1 address_16 9 0 0 [] .valid registered_A).reply
        = some (server_A.SendResponse (toStdString address_16) 9 0 0 []))) :=
  ⟨rfl, reply_is_engine_acceptance registered_A 1 server_A address_16 ⟨5⟩ true 9 0 0 []
    (some registered_B) 0 ⟨5⟩ 3 rfl⟩

/-- C10: the closure that `EndServiceDeclaration` (`SendNotification`) hands to the
Engine for instance id `i`, in a dispatcher state `d0`, is the one that carries `i` (and
the request's device address). Invoked while the dispatcher is alive, in a state `d` whose
registry maps `i` to the callback `c`, it returns normally and delivers exactly one event,
to `c`: `OnServiceAdded` with the Engine's status and service identifier
(`OnNotificationSent` with the request's device address and the Engine's error). -/
theorem completion_delivers_to_current_callback (d0 d : Dispatcher) (i : Int)
    (g0 : GattServer) (c : IBluetoothGattServerCallback) (device_address : String16)
    (characteristic_id : GattIdentifier) (confirm : Bool) (value : Bytes)
    (status : BLEStatus) (service_id : GattIdentifier) (error : GATTError)
    (h0 : (GetGattServer i d0).result = .ok (some g0))
    (h : (GetGattServerCallback i d).result = .ok (some c)) :
    (EndServiceDeclaration i .valid d0).engine_calls
      = [(g0.addr, .EndServiceDeclaration ⟨i⟩)] ∧
    ((ServiceAddedClosure.mk i).invoke status service_id (some d)).result = .ok () ∧
    ((ServiceAddedClosure.mk i).invoke status service_id (some d)).delivered
      = [(c, .OnServiceAdded status service_id)] ∧
    (SendNotification i device_address characteristic_id confirm value .valid d0).engine_calls
      = [(g0.addr, .SendNotification (toStdString device_address) characteristic_id confirm
          value ⟨i, device_address⟩)] ∧
    ((NotificationSentClosure.mk i device_address).invoke error (some d)).result = .ok () ∧
    ((NotificationSentClosure.mk i device_address).invoke error (some d)).delivered
      = [(c, .OnNotificationSent device_address error)] := by
  have hg : d0.id_to_instance i = some g0 := by
    simpa [GetGattServer, GetInstance] using h0
  have hc : d.id_to_cb i = some c := by
    simpa [GetGattServerCallback, GetCallback] using h
  refine ⟨?_, ?_, ?_, ?_, ?_, ?_⟩
  · cases hr : g0.EndServiceDeclaration ⟨i⟩ <;>
    simp [EndServiceDeclaration, GetGattServer, GetInstance, call, store_aidl_return, act,
      bind, pure, M.bind, M.pure, hg, hr, Run.engine_calls, Action.engine_call]
  · simp [ServiceAddedClosure.invoke, ServiceAddedClosure.body, GetGattServerCallback,
      GetCallback, deliver, act, bind, M.bind, hc]
  · simp [ServiceAddedClosure.invoke, ServiceAddedClosure.body, GetGattServerCallback,
      GetCallback, deliver, act, bind, M.bind, hc, Run.delivered, Action.delivery]
  · cases hr : g0.SendNotification (toStdString device_address) characteristic_id confirm
      value ⟨i, device_address⟩ <;>
    simp [SendNotification, GetGattServer, GetInstance, call, store_aidl_return, act,
      bind, pure, M.bind, M.pure, hg, hr, Run.engine_calls, Action.engine_call]
  · simp [NotificationSentClosure.invoke, NotificationSentClosure.body,
      GetGattServerCallback, GetCallback, deliver, act, bind, M.bind, hc]
  · simp [NotificationSentClosure.invoke, NotificationSentClosure.body,
      GetGattServerCallback, GetCallback, deliver, act, bind, M.bind, hc, Run.delivered,
      Action.delivery]

/-- Witness of C10: the closures are created while id 1 resolves to `callback_A`
(`registered_A`) and invoked while it resolves to `callback_B` (`registered_B`); the
events go to `callback_B`. -/
theorem completion_delivers_to_current_callback_witness :
    (GetGattServer 1 registered_A).result = .ok (some server_A) ∧
    (GetGattServerCallback 1 registered_A).result = .ok (some callback_A) ∧
    (GetGattServerCallback 1 registered_B).result = .ok (some callback_B) ∧
    callback_A ≠ callback_B ∧
    ((EndServiceDeclaration 1 .valid registered_A).engine_calls
      = [(server_A.addr, .EndServiceDeclaration ⟨1⟩)] ∧
    ((ServiceAddedClosure.mk 1).invoke 0 ⟨5⟩ (some registered_B)).result = .ok () ∧
    ((ServiceAddedClosure.mk 1).invoke 0 ⟨5⟩ (some registered_B)).delivered
      = [(callback_B, .OnServiceAdded 0 ⟨5⟩)] ∧
    (SendNotification 1 address_16 ⟨6⟩ true [1] .valid registered_A).engine_calls
      = [(server_A.addr, .SendNotification (toStdString address_16) ⟨6⟩ true [1]
          ⟨1, address_16⟩)] ∧
    ((NotificationSentClosure.mk 1 address_16).invoke 3 (some registered_B)).result
      = .ok () ∧
    ((NotificationSentClosure.mk 1 address_16).invoke 3 (some registered_B)).delivered
      = [(callback_B, .OnNotificationSent address_16 3)]) :=
  ⟨rfl, rfl, rfl, by decide,
    completion_delivers_to_current_callback registered_A registered_B 1 server_A callback_B
      address_16 ⟨6⟩ true [1] 0 ⟨5⟩ 3 rfl rfl⟩

end ipc.binder
